import Mathlib

/-!
Verification of the dispatch and response-routing protocol of `ts-amqp-socket`.

The development shallowly embeds the per-message processing performed by
`AmqpSocket.listen` (src/amqp.ts), together with the publishing helpers
`publish`, `publishError` and `publishSuccess`, as pure Lean functions.
Asynchrony is flattened: a handler is a function returning `Except`, the
routing-key store is a function `String → Option String`, and the effects of
one message's processing are collected in a `ListenResult` (which handlers
were invoked, which messages were handed to `channel.publish`, and whether an
exception escaped the consume callback).  Header decoding and the
configuration's `bodyMapper` are external inputs, so their results (possibly
failure) are parameters of the step function.

The repository contains a second, older copy of `AmqpSocket.listen` in
src/index.ts; it is embedded separately as `listenStepIndex`.
-/

namespace TsAmqpSocket

/-- Session data of the client (src/types.ts `SessionData`). -/
structure SessionData where
  username : String
  userID : String
  impersonateID : String
  sessionID : String
  saveStateID : String
  roomID : String
  jwt : String
  deriving DecidableEq

/-- The `fromFrontend` part of the inbound header. -/
structure FromFrontend where
  callID : String
  body : String
  deriving DecidableEq

/-- Message contained in the header of the AMQP message
(src/types.ts `AmqpFrontendMessage`). -/
structure AmqpFrontendMessage where
  sessionData : SessionData
  fromFrontend : FromFrontend
  deriving DecidableEq

/-- `AmqpConfig.queue`. -/
structure QueueConfig where
  request : String
  deriving DecidableEq

/-- `AmqpConfig.exchange`. -/
structure ExchangeConfig where
  request : String
  response : String
  deriving DecidableEq

/-- `AmqpConfig.routingKey`. -/
structure RoutingKeyConfig where
  request : String
  deriving DecidableEq

/-- Configuration for an AmqpSocket (src/types.ts `AmqpConfig`).  The
`bodyMapper` field is an external collaborator and is modelled as an input of
the step function rather than as a field. -/
structure AmqpConfig where
  queue : QueueConfig
  exchange : ExchangeConfig
  routingKey : RoutingKeyConfig
  successType : String
  errorType : String
  deriving DecidableEq

/-- `message.properties.headers`: opaque correlation metadata, possibly
`undefined` (`none`).  Only echoed, never inspected, by the core. -/
abbrev MessageHeaders := Option String

/-- The body produced by the configured `bodyMapper`
(src/types.ts `AmqpRequestBody`): an optional `action` selector plus the rest
of the payload, taken opaque of type `P`. -/
structure AmqpRequestBody (P : Type) where
  action : Option String
  payload : P
  deriving DecidableEq

/-- A value thrown by a handler: either an `Error` instance carrying a
`message`, or any other thrown value. -/
inductive ThrownValue where
  | errorInstance (message : String)
  | nonError
  deriving DecidableEq

/-- `error instanceof Error ? error.message : "An error occurred"`
(src/amqp.ts, catch block of `listen`). -/
def thrownDescription : ThrownValue → String
  | .errorInstance m => m
  | .nonError => "An error occurred"

/-- The `value` field of a response envelope: the handler's result on the
success path, or the `{ error: string }` object built by `publishError`. -/
inductive EnvValue (V : Type) where
  | result (v : V)
  | errorObj (error : String)
  deriving DecidableEq

/-- Contents of a response message (src/types.ts `AmqpResponse`):
`{ value, type, callID }`. -/
structure AmqpResponse (V : Type) where
  value : EnvValue V
  type : String
  callID : String
  deriving DecidableEq

/-- Context for publishing a message (src/types.ts `PublishContext`). -/
structure PublishContext where
  routingKey : String
  callID : String
  headers : MessageHeaders
  deriving DecidableEq

/-- One call to `channel.publish`: the response exchange, the routing key,
the (structured, pre-serialization) envelope, and the `{ headers }` option. -/
structure PublishedMessage (V : Type) where
  exchange : String
  routingKey : String
  response : AmqpResponse V
  headers : MessageHeaders
  deriving DecidableEq

/-- A registered handler (src/types.ts `AuthHandler`), with the returned
promise flattened: it either resolves with a `V` or rejects with a thrown
value. -/
abbrev AuthHandler (V P : Type) := AmqpRequestBody P → SessionData → Except ThrownValue V

/-- `AmqpSocket.handle`: `this.handlers[key] = handler` on the registry,
modelled as a lookup function (later registration for the same key wins). -/
def handle {V P : Type} (handlers : String → Option (AuthHandler V P))
    (key : String) (handler : AuthHandler V P) : String → Option (AuthHandler V P) :=
  fun k => if k = key then some handler else handlers k

/-- `AmqpSocket.publish`: builds the `AmqpResponse` from the context and hands
it to `channel.publish` on the response exchange with the context's routing
key and headers. -/
def publish {V : Type} (cfg : AmqpConfig) (context : PublishContext)
    (response : EnvValue V) (type : String) : PublishedMessage V :=
  { exchange := cfg.exchange.response
    routingKey := context.routingKey
    response := { value := response, type := type, callID := context.callID }
    headers := context.headers }

/-- `AmqpSocket.publishError`: wraps the message in `{ error: _ }` and tags it
with the configured `errorType`. -/
def publishError {V : Type} (cfg : AmqpConfig) (context : PublishContext)
    (error : String) : PublishedMessage V :=
  publish cfg context (.errorObj error) cfg.errorType

/-- `AmqpSocket.publishSuccess`: publishes the handler's result tagged with
the configured `successType`. -/
def publishSuccess {V : Type} (cfg : AmqpConfig) (context : PublishContext)
    (response : V) : PublishedMessage V :=
  publish cfg context (.result response) cfg.successType

/-- The error text `Action "<name>" doesn't exist` (src/amqp.ts, `listen`). -/
def unknownActionText (action : String) : String :=
  "Action \"" ++ action ++ "\" doesn't exist"

/-- The observable outcome of processing one consumed message: the keys of
the handlers that were invoked (in order), the messages handed to
`channel.publish` (in order), and whether an exception escaped the consume
callback (`fault`). -/
structure ListenResult (V : Type) where
  invoked : List String
  published : List (PublishedMessage V)
  fault : Bool
  deriving DecidableEq

/-- Per-message processing of `AmqpSocket.listen` (src/amqp.ts), after the
non-null check and the acknowledgement.  `headerContent?` is the result of
decoding `message.properties.headers.message` (`none` when `JSON.parse`
throws), `body?` the result of `config.bodyMapper(message)` (`none` when the
mapper throws); either failure escapes the callback uncaught.  `store` is
`routingKeyStore.get`. -/
def listenStep {V P : Type} (cfg : AmqpConfig)
    (handlers : String → Option (AuthHandler V P))
    (store : String → Option String)
    (msgHeaders : MessageHeaders)
    (headerContent? : Option AmqpFrontendMessage)
    (body? : Option (AmqpRequestBody P)) : ListenResult V :=
  match headerContent? with
  | none => { invoked := [], published := [], fault := true }
  | some headerContent =>
    match body? with
    | none => { invoked := [], published := [], fault := true }
    | some body =>
      match store headerContent.sessionData.sessionID with
      | none =>
        -- routing key not found: session is no longer alive, ignore
        { invoked := [], published := [], fault := false }
      | some routingKey =>
        let context : PublishContext :=
          { routingKey := routingKey
            callID := headerContent.fromFrontend.callID
            headers := msgHeaders }
        -- if no action is specified and no __default handler exists, error
        if body.action.isNone && (handlers "__default").isNone then
          { invoked := []
            published := [publishError cfg context "No action specified"]
            fault := false }
        else
          -- body.action ??= "__default"
          let act := body.action.getD "__default"
          let body := { body with action := some act }
          match handlers act with
          | none =>
            { invoked := []
              published := [publishError cfg context (unknownActionText act)]
              fault := false }
          | some handler =>
            match handler body headerContent.sessionData with
            | .ok response =>
              { invoked := [act]
                published := [publishSuccess cfg context response]
                fault := false }
            | .error error =>
              { invoked := [act]
                published := [publishError cfg context (thrownDescription error)]
                fault := false }

/-- Per-message processing of the second copy of `AmqpSocket.listen`
(src/index.ts).  It differs from src/amqp.ts in one statement: it assigns
`body.action = "__default"` unconditionally where src/amqp.ts uses the
conditional `body.action ??= "__default"`. -/
def listenStepIndex {V P : Type} (cfg : AmqpConfig)
    (handlers : String → Option (AuthHandler V P))
    (store : String → Option String)
    (msgHeaders : MessageHeaders)
    (headerContent? : Option AmqpFrontendMessage)
    (body? : Option (AmqpRequestBody P)) : ListenResult V :=
  match headerContent? with
  | none => { invoked := [], published := [], fault := true }
  | some headerContent =>
    match body? with
    | none => { invoked := [], published := [], fault := true }
    | some body =>
      match store headerContent.sessionData.sessionID with
      | none => { invoked := [], published := [], fault := false }
      | some routingKey =>
        let ctx : PublishContext :=
          { routingKey := routingKey
            callID := headerContent.fromFrontend.callID
            headers := msgHeaders }
        if body.action.isNone && (handlers "__default").isNone then
          { invoked := []
            published := [publishError cfg ctx "No action specified"]
            fault := false }
        else
          -- body.action = "__default"  (unconditional assignment)
          let act := "__default"
          let body := { body with action := some act }
          match handlers act with
          | none =>
            { invoked := []
              published := [publishError cfg ctx (unknownActionText act)]
              fault := false }
          | some handler =>
            match handler body headerContent.sessionData with
            | .ok response =>
              { invoked := [act]
                published := [publishSuccess cfg ctx response]
                fault := false }
            | .error error =>
              { invoked := [act]
                published := [publishError cfg ctx (thrownDescription error)]
                fault := false }

/-- The single publish produced from a handler's outcome: a success envelope
around the result, or an error envelope around the thrown value's
description. -/
def responsePublish {V : Type} (cfg : AmqpConfig) (context : PublishContext) :
    Except ThrownValue V → PublishedMessage V
  | .ok response => publishSuccess cfg context response
  | .error error => publishError cfg context (thrownDescription error)

/-! Concrete fixtures used for counterexamples and witnesses. -/

/-- A concrete configuration (the README's example values). -/
def exampleConfig : AmqpConfig :=
  { queue := { request := "example-service-request-queue" }
    exchange := { request := "requests-exchange", response := "ui-direct-exchange" }
    routingKey := { request := "example-service-request" }
    successType := "example_service_result"
    errorType := "example_service_error" }

/-- A concrete session. -/
def exampleSession : SessionData :=
  { username := "alice", userID := "u1", impersonateID := "", sessionID := "s1"
    saveStateID := "", roomID := "r1", jwt := "jwt1" }

/-- A concrete decoded inbound header. -/
def exampleHeader : AmqpFrontendMessage :=
  { sessionData := exampleSession
    fromFrontend := { callID := "call-42", body := "{}" } }

/-- A concrete routing-key store mapping session `s1` to routing key `rk-1`. -/
def exampleStore : String → Option String :=
  fun s => if s = "s1" then some "rk-1" else none

/-- A registry holding a single handler under key `foo` that succeeds with
`7`. -/
def fooHandlers : String → Option (AuthHandler Nat Unit) :=
  handle (fun _ => none) "foo" (fun _ _ => .ok 7)

/-- A body selecting action `foo`. -/
def fooBody : AmqpRequestBody Unit := { action := some "foo", payload := () }

/-- The empty registry. -/
def noHandlers : String → Option (AuthHandler Nat Unit) := fun _ => none

/-- A body with no action field. -/
def noActionBody : AmqpRequestBody Unit := { action := none, payload := () }

/-- A decoded header whose session id (`s2`) the store does not know. -/
def staleHeader : AmqpFrontendMessage :=
  { sessionData := { exampleSession with sessionID := "s2" }
    fromFrontend := { callID := "call-43", body := "{}" } }

/-- A body selecting the unregistered action `ghost`. -/
def ghostBody : AmqpRequestBody Unit := { action := some "ghost", payload := () }

/-- A registry holding a single handler under key `boom` that throws
`new Error("boom")`. -/
def boomHandlers : String → Option (AuthHandler Nat Unit) :=
  handle (fun _ => none) "boom" (fun _ _ => .error (.errorInstance "boom"))

/-- A body selecting action `boom`. -/
def boomBody : AmqpRequestBody Unit := { action := some "boom", payload := () }

/-- C1: for every action `a` with a registered handler and every inbound
message whose body has `action = a` and whose session id resolves to a
routing key, dispatch invokes exactly the handler registered under `a` and no
other, and the single published envelope is the one determined by that
handler's outcome. -/
theorem claim1_dispatch_exact_handler {V P : Type} (cfg : AmqpConfig)
    (handlers : String → Option (AuthHandler V P))
    (store : String → Option String) (msgHeaders : MessageHeaders)
    (header : AmqpFrontendMessage) (body : AmqpRequestBody P)
    (a : String) (h : AuthHandler V P) (rk : String)
    (hact : body.action = some a)
    (hreg : handlers a = some h)
    (hrk : store header.sessionData.sessionID = some rk) :
    (listenStep cfg handlers store msgHeaders (some header) (some body)).invoked = [a] ∧
    (listenStep cfg handlers store msgHeaders (some header) (some body)).published =
      [responsePublish cfg
        { routingKey := rk, callID := header.fromFrontend.callID, headers := msgHeaders }
        (h body header.sessionData)] := by
  obtain ⟨ba, bp⟩ := body
  cases hact
  cases hres : h ⟨some a, bp⟩ header.sessionData <;>
    simp [listenStep, hrk, hreg, hres, responsePublish]

/-- C1, instantiated: a message with `action = "foo"` against a registry
holding `foo` dispatches to the `foo` handler alone. -/
theorem claim1_witness :
    (listenStep exampleConfig fooHandlers exampleStore (some "hdrs")
      (some exampleHeader) (some fooBody)).invoked = ["foo"] ∧
    (listenStep exampleConfig fooHandlers exampleStore (some "hdrs")
      (some exampleHeader) (some fooBody)).published =
      [responsePublish exampleConfig
        { routingKey := "rk-1", callID := "call-42", headers := some "hdrs" }
        (Except.ok 7)] :=
  claim1_dispatch_exact_handler exampleConfig fooHandlers exampleStore (some "hdrs")
    exampleHeader fooBody "foo" (fun _ _ => .ok 7) "rk-1" rfl rfl rfl

/-- C2: the two `AmqpSocket.listen` implementations (src/amqp.ts and
src/index.ts) are not behaviorally equivalent: on a message selecting the
registered action `foo`, src/amqp.ts invokes the `foo` handler and publishes
its success, while src/index.ts overwrites the action with `__default` and
publishes the error `Action "__default" doesn't exist`. -/
theorem claim2_divergence :
    listenStep exampleConfig fooHandlers exampleStore (some "hdrs")
        (some exampleHeader) (some fooBody) ≠
      listenStepIndex exampleConfig fooHandlers exampleStore (some "hdrs")
        (some exampleHeader) (some fooBody) := by decide

/-- C3: every envelope published while processing a message whose header
decoded to `header` carries `callID = header.fromFrontend.callID`. -/
theorem claim3_callID_roundtrip {V P : Type} (cfg : AmqpConfig)
    (handlers : String → Option (AuthHandler V P))
    (store : String → Option String) (msgHeaders : MessageHeaders)
    (header : AmqpFrontendMessage) (body? : Option (AmqpRequestBody P))
    (p : PublishedMessage V)
    (hp : p ∈ (listenStep cfg handlers store msgHeaders (some header) body?).published) :
    p.response.callID = header.fromFrontend.callID := by
  simp only [listenStep] at hp
  repeat' split at hp
  all_goals simp_all [publishError, publishSuccess, publish]

/-- C3, instantiated: the success envelope for the `foo` request carries the
inbound header's call id. -/
theorem claim3_witness :
    (publishSuccess exampleConfig
      { routingKey := "rk-1", callID := "call-42", headers := some "hdrs" }
      (7 : Nat)).response.callID = exampleHeader.fromFrontend.callID :=
  claim3_callID_roundtrip exampleConfig fooHandlers exampleStore (some "hdrs")
    exampleHeader (some fooBody) _ (by decide)

/-- C4: when the routing-key store does not know the message's session id,
nothing is published and no handler is invoked, whatever the body, registry
or handlers. -/
theorem claim4_unresolvable_session_drops {V P : Type} (cfg : AmqpConfig)
    (handlers : String → Option (AuthHandler V P))
    (store : String → Option String) (msgHeaders : MessageHeaders)
    (header : AmqpFrontendMessage) (body : AmqpRequestBody P)
    (hrk : store header.sessionData.sessionID = none) :
    (listenStep cfg handlers store msgHeaders (some header) (some body)).published = [] ∧
    (listenStep cfg handlers store msgHeaders (some header) (some body)).invoked = [] := by
  simp [listenStep, hrk]

/-- C4, instantiated: a message for the unknown session `s2` is dropped. -/
theorem claim4_witness :
    (listenStep exampleConfig fooHandlers exampleStore (some "hdrs")
      (some staleHeader) (some fooBody)).published = [] ∧
    (listenStep exampleConfig fooHandlers exampleStore (some "hdrs")
      (some staleHeader) (some fooBody)).invoked = [] :=
  claim4_unresolvable_session_drops exampleConfig fooHandlers exampleStore (some "hdrs")
    staleHeader fooBody rfl

/-- C5: a resolvable message whose body has no `action`, when no handler is
registered under `__default`, yields exactly one published error envelope
with message `No action specified`, and no handler is invoked. -/
theorem claim5_no_action_error {V P : Type} (cfg : AmqpConfig)
    (handlers : String → Option (AuthHandler V P))
    (store : String → Option String) (msgHeaders : MessageHeaders)
    (header : AmqpFrontendMessage) (body : AmqpRequestBody P) (rk : String)
    (hrk : store header.sessionData.sessionID = some rk)
    (hact : body.action = none)
    (hdef : handlers "__default" = none) :
    (listenStep cfg handlers store msgHeaders (some header) (some body)).published =
      [publishError cfg
        { routingKey := rk, callID := header.fromFrontend.callID, headers := msgHeaders }
        "No action specified"] ∧
    (listenStep cfg handlers store msgHeaders (some header) (some body)).invoked = [] := by
  obtain ⟨ba, bp⟩ := body
  cases hact
  simp [listenStep, hrk, hdef]

/-- C5, instantiated: no action, empty registry, resolvable session. -/
theorem claim5_witness :
    (listenStep exampleConfig noHandlers exampleStore (some "hdrs")
      (some exampleHeader) (some noActionBody)).published =
      [publishError exampleConfig
        { routingKey := "rk-1", callID := "call-42", headers := some "hdrs" }
        "No action specified"] ∧
    (listenStep exampleConfig noHandlers exampleStore (some "hdrs")
      (some exampleHeader) (some noActionBody)).invoked = [] :=
  claim5_no_action_error exampleConfig noHandlers exampleStore (some "hdrs")
    exampleHeader noActionBody "rk-1" rfl rfl rfl

/-- C6, counterexample to the claim as stated: a resolvable message with no
`action` field against the empty registry has defaulted action `__default`
with no registered handler, yet the (single) published error envelope says
`No action specified`, not `Action "__default" doesn't exist`. -/
theorem claim6_counterexample :
    (listenStep exampleConfig noHandlers exampleStore (some "hdrs")
      (some exampleHeader) (some noActionBody)).published =
      [publishError exampleConfig
        { routingKey := "rk-1", callID := "call-42", headers := some "hdrs" }
        "No action specified"] ∧
    publishError (V := Nat) exampleConfig
        { routingKey := "rk-1", callID := "call-42", headers := some "hdrs" }
        "No action specified" ≠
      publishError exampleConfig
        { routingKey := "rk-1", callID := "call-42", headers := some "hdrs" }
        (unknownActionText "__default") := by decide

/-- C6, amended: a resolvable message whose body supplies an action `a` with
no registered handler yields exactly one published error envelope with
message `Action "<a>" doesn't exist`, and no handler is invoked.  (When the
body supplies no action and no default handler exists, the message is
`No action specified` instead.) -/
theorem claim6_unknown_action_error {V P : Type} (cfg : AmqpConfig)
    (handlers : String → Option (AuthHandler V P))
    (store : String → Option String) (msgHeaders : MessageHeaders)
    (header : AmqpFrontendMessage) (body : AmqpRequestBody P)
    (a : String) (rk : String)
    (hrk : store header.sessionData.sessionID = some rk)
    (hact : body.action = some a)
    (hreg : handlers a = none) :
    (listenStep cfg handlers store msgHeaders (some header) (some body)).published =
      [publishError cfg
        { routingKey := rk, callID := header.fromFrontend.callID, headers := msgHeaders }
        (unknownActionText a)] ∧
    (listenStep cfg handlers store msgHeaders (some header) (some body)).invoked = [] := by
  obtain ⟨ba, bp⟩ := body
  cases hact
  simp [listenStep, hrk, hreg]

/-- C6, instantiated: `action = "ghost"` against the empty registry. -/
theorem claim6_witness :
    (listenStep exampleConfig noHandlers exampleStore (some "hdrs")
      (some exampleHeader) (some ghostBody)).published =
      [publishError exampleConfig
        { routingKey := "rk-1", callID := "call-42", headers := some "hdrs" }
        (unknownActionText "ghost")] ∧
    (listenStep exampleConfig noHandlers exampleStore (some "hdrs")
      (some exampleHeader) (some ghostBody)).invoked = [] :=
  claim6_unknown_action_error exampleConfig noHandlers exampleStore (some "hdrs")
    exampleHeader ghostBody "ghost" "rk-1" rfl rfl rfl

/-- C7: when the selected handler fails, exactly one error envelope is
published, carrying `{ error: m }` with `m` the thrown `Error`'s message (or
the fallback `An error occurred` for a non-`Error` value), the handler is the
only one invoked, and the failure does not escape the consume callback. -/
theorem claim7_handler_failure {V P : Type} (cfg : AmqpConfig)
    (handlers : String → Option (AuthHandler V P))
    (store : String → Option String) (msgHeaders : MessageHeaders)
    (header : AmqpFrontendMessage) (body : AmqpRequestBody P)
    (a : String) (rk : String) (h : AuthHandler V P) (t : ThrownValue)
    (hrk : store header.sessionData.sessionID = some rk)
    (hsel : body.action.getD "__default" = a)
    (hreg : handlers a = some h)
    (hfail : h { body with action := some a } header.sessionData = .error t) :
    (listenStep cfg handlers store msgHeaders (some header) (some body)).published =
      [publishError cfg
        { routingKey := rk, callID := header.fromFrontend.callID, headers := msgHeaders }
        (thrownDescription t)] ∧
    (listenStep cfg handlers store msgHeaders (some header) (some body)).invoked = [a] ∧
    (listenStep cfg handlers store msgHeaders (some header) (some body)).fault = false := by
  obtain ⟨ba, bp⟩ := body
  cases ba with
  | none =>
    simp only [Option.getD_none] at hsel
    subst hsel
    simp [listenStep, hrk, hreg, hfail]
  | some b =>
    simp only [Option.getD_some] at hsel
    subst hsel
    simp [listenStep, hrk, hreg, hfail]

/-- C7, instantiated: the `boom` handler throws `new Error("boom")`. -/
theorem claim7_witness :
    (listenStep exampleConfig boomHandlers exampleStore (some "hdrs")
      (some exampleHeader) (some boomBody)).published =
      [publishError exampleConfig
        { routingKey := "rk-1", callID := "call-42", headers := some "hdrs" }
        (thrownDescription (.errorInstance "boom"))] ∧
    (listenStep exampleConfig boomHandlers exampleStore (some "hdrs")
      (some exampleHeader) (some boomBody)).invoked = ["boom"] ∧
    (listenStep exampleConfig boomHandlers exampleStore (some "hdrs")
      (some exampleHeader) (some boomBody)).fault = false :=
  claim7_handler_failure exampleConfig boomHandlers exampleStore (some "hdrs")
    exampleHeader boomBody "boom" "rk-1"
    (fun _ _ => .error (.errorInstance "boom")) (.errorInstance "boom")
    rfl rfl rfl rfl

/-- C8: every published envelope echoes the inbound message's headers
unchanged (and goes to the configured response exchange), and its `type` is
the configured `successType` when the value is a handler result and the
configured `errorType` when the value is an error object. -/
theorem claim8_headers_and_type {V P : Type} (cfg : AmqpConfig)
    (handlers : String → Option (AuthHandler V P))
    (store : String → Option String) (msgHeaders : MessageHeaders)
    (headerContent? : Option AmqpFrontendMessage) (body? : Option (AmqpRequestBody P))
    (p : PublishedMessage V)
    (hp : p ∈ (listenStep cfg handlers store msgHeaders headerContent? body?).published) :
    p.headers = msgHeaders ∧
    p.exchange = cfg.exchange.response ∧
    p.response.type =
      (match p.response.value with
        | .result _ => cfg.successType
        | .errorObj _ => cfg.errorType) := by
  simp only [listenStep] at hp
  repeat' split at hp
  all_goals simp_all [publishError, publishSuccess, publish]

/-- C8, instantiated: the success envelope for the `foo` request. -/
theorem claim8_witness :
    (publishSuccess exampleConfig
      { routingKey := "rk-1", callID := "call-42", headers := some "hdrs" }
      (7 : Nat)).headers = some "hdrs" ∧
    (publishSuccess exampleConfig
      { routingKey := "rk-1", callID := "call-42", headers := some "hdrs" }
      (7 : Nat)).exchange = exampleConfig.exchange.response ∧
    (publishSuccess exampleConfig
      { routingKey := "rk-1", callID := "call-42", headers := some "hdrs" }
      (7 : Nat)).response.type = exampleConfig.successType :=
  claim8_headers_and_type exampleConfig fooHandlers exampleStore (some "hdrs")
    (some exampleHeader) (some fooBody) _ (by decide)

/-- C9: every path of the dispatch engine publishes at most one envelope per
consumed message. -/
theorem claim9_at_most_one_publish {V P : Type} (cfg : AmqpConfig)
    (handlers : String → Option (AuthHandler V P))
    (store : String → Option String) (msgHeaders : MessageHeaders)
    (headerContent? : Option AmqpFrontendMessage) (body? : Option (AmqpRequestBody P)) :
    (listenStep cfg handlers store msgHeaders headerContent? body?).published.length ≤ 1 := by
  simp only [listenStep]
  repeat' split
  all_goals simp

/-- C10: when header decoding or body extraction fails, the failure escapes
the consume callback and nothing is published and no handler is invoked. -/
theorem claim10_decode_failure_propagates {V P : Type} (cfg : AmqpConfig)
    (handlers : String → Option (AuthHandler V P))
    (store : String → Option String) (msgHeaders : MessageHeaders)
    (headerContent? : Option AmqpFrontendMessage) (body? : Option (AmqpRequestBody P))
    (hfail : headerContent? = none ∨ body? = none) :
    (listenStep cfg handlers store msgHeaders headerContent? body?).published = [] ∧
    (listenStep cfg handlers store msgHeaders headerContent? body?).invoked = [] ∧
    (listenStep cfg handlers store msgHeaders headerContent? body?).fault = true := by
  cases headerContent? with
  | none => simp [listenStep]
  | some header =>
    rcases hfail with h1 | h2
    · exact absurd h1 (by simp)
    · cases h2
      simp [listenStep]

/-- C10, instantiated: a message whose header fails to decode. -/
theorem claim10_witness :
    (listenStep exampleConfig fooHandlers exampleStore (some "hdrs")
      none (some fooBody)).published = [] ∧
    (listenStep exampleConfig fooHandlers exampleStore (some "hdrs")
      none (some fooBody)).invoked = [] ∧
    (listenStep exampleConfig fooHandlers exampleStore (some "hdrs")
      none (some fooBody)).fault = true :=
  claim10_decode_failure_propagates exampleConfig fooHandlers exampleStore (some "hdrs")
    none (some fooBody) (Or.inl rfl)

end TsAmqpSocket
